import Mathlib

/-!
# joltc.h: the C interface of the Jolt physics binding

A shallow embedding of `src/joltc/joltc.h`.  The header declares the types,
the enumerations, the callback table and the functions of the binding; the
function bodies live outside the header.

* Part 1 embeds what the header itself fixes: the integer typedefs, the three
  enumerations (with the C rule that gives an enumerator without initialiser
  the value of its predecessor plus one), the plain structs, the callback
  table, both as a record of functions and as the declaration it is written
  as, and the types of the declared functions.
* Part 2 models the engine behind the declarations, as far as the
  specification describes it; every such definition says so in its comment.
-/

namespace JoltC

/-! ## Part 1: declarations of the header -/

/-- Declaration `typedef uint32_t JPH_BodyID;` (joltc.h:45): a value below `2^32`. -/
abbrev JPH_BodyID := Nat

/-- Declaration `typedef uint32_t JPH_SubShapeID;` (joltc.h:46). -/
abbrev JPH_SubShapeID := Nat

/-- Declaration `typedef uint16_t JPH_ObjectLayer;` (joltc.h:47). -/
abbrev JPH_ObjectLayer := Nat

/-- Declaration `typedef uint8_t JPH_BroadPhaseLayer;` (joltc.h:48). -/
abbrev JPH_BroadPhaseLayer := Nat

/-- A C `float`, held as its 32-bit pattern.  No arithmetic on it is modelled:
the embedding only stores, copies and compares such values. -/
abbrev CFloat := Nat

/-- The result type `void` of a C function: one value, carrying nothing. -/
abbrev CVoid := Unit

/-- Declaration `JPH_ObjectVsBroadPhaseLayerFilter` (joltc.h:50):
`bool (*)(JPH_ObjectLayer inLayer1, JPH_BroadPhaseLayer inLayer2)`. -/
abbrev JPH_ObjectVsBroadPhaseLayerFilter := JPH_ObjectLayer → JPH_BroadPhaseLayer → Bool

/-- Declaration `JPH_ObjectLayerPairFilter` (joltc.h:51):
`bool (*)(JPH_ObjectLayer inLayer1, JPH_ObjectLayer inLayer2)`. -/
abbrev JPH_ObjectLayerPairFilter := JPH_ObjectLayer → JPH_ObjectLayer → Bool

/-- Values of the enumerators of a C `enum`, from their initialisers in
declaration order (`none` for an enumerator written without one): an
enumerator with an initialiser has that value, one without has the value of
the enumerator before it plus one, and zero when it is the first. -/
def enumValuesFrom (next : Nat) : List (Option Nat) → List Nat
  | [] => []
  | some v :: rest => v :: enumValuesFrom (v + 1) rest
  | none :: rest => next :: enumValuesFrom (next + 1) rest

/-- Values of all enumerators of an `enum` declaration. -/
def enumValues (initialisers : List (Option Nat)) : List Nat :=
  enumValuesFrom 0 initialisers

/-- Largest value of a signed 32-bit integer, `2^31 - 1`. -/
def INT32_MAX : Nat := 2 ^ 31 - 1

/-! ### `JPH_MotionType` (joltc.h:53-60) -/

/-- The enumerators of `JPH_MotionType` that name a motion type. -/
inductive JPH_MotionType where
  | JPH_MOTION_TYPE_STATIC
  | JPH_MOTION_TYPE_KINEMATIC
  | JPH_MOTION_TYPE_DYNAMIC
  deriving DecidableEq, Repr

/-- Initialisers of the five enumerators of `JPH_MotionType`, as written:
`= 0`, `= 1`, `= 2`, none for `_JPH_MOTION_TYPE__NUM`, `= 0x7fffffff`. -/
def JPH_MotionType_initialisers : List (Option Nat) :=
  [some 0, some 1, some 2, none, some 0x7fffffff]

/-- Place of a motion type among the enumerators of the declaration. -/
def JPH_MotionType.position : JPH_MotionType → Nat
  | .JPH_MOTION_TYPE_STATIC => 0
  | .JPH_MOTION_TYPE_KINEMATIC => 1
  | .JPH_MOTION_TYPE_DYNAMIC => 2

/-- Numeric code of a motion type. -/
def JPH_MotionType.code (m : JPH_MotionType) : Nat :=
  (enumValues JPH_MotionType_initialisers).getD m.position 0

/-- The count sentinel, fourth enumerator of `JPH_MotionType`. -/
def _JPH_MOTION_TYPE__NUM : Nat := (enumValues JPH_MotionType_initialisers).getD 3 0

/-- The width-forcing member, fifth enumerator of `JPH_MotionType`. -/
def _JPH_MOTION_TYPE_FORCEU32 : Nat := (enumValues JPH_MotionType_initialisers).getD 4 0

/-- The motion types, in declaration order. -/
def JPH_MotionType.all : List JPH_MotionType :=
  [.JPH_MOTION_TYPE_STATIC, .JPH_MOTION_TYPE_KINEMATIC, .JPH_MOTION_TYPE_DYNAMIC]

/-- The enumerators of `JPH_ActivationMode` that name an activation mode. -/
inductive JPH_ActivationMode where
  | JPH_ACTIVATION_MODE_ACTIVATE
  | JPH_ACTIVATION_MODE_DONT_ACTIVATE
  deriving DecidableEq, Repr

/-- Initialisers of the four enumerators of `JPH_ActivationMode`, as written:
`= 0`, `= 1`, none for `_JPH_ACTIVATION_MODE_NUM`, `= 0x7fffffff`. -/
def JPH_ActivationMode_initialisers : List (Option Nat) :=
  [some 0, some 1, none, some 0x7fffffff]

/-- Place of an activation mode among the enumerators of the declaration. -/
def JPH_ActivationMode.position : JPH_ActivationMode → Nat
  | .JPH_ACTIVATION_MODE_ACTIVATE => 0
  | .JPH_ACTIVATION_MODE_DONT_ACTIVATE => 1

/-- Numeric code of an activation mode. -/
def JPH_ActivationMode.code (a : JPH_ActivationMode) : Nat :=
  (enumValues JPH_ActivationMode_initialisers).getD a.position 0

/-- The count sentinel, third enumerator of `JPH_ActivationMode`. -/
def _JPH_ACTIVATION_MODE_NUM : Nat := (enumValues JPH_ActivationMode_initialisers).getD 2 0

/-- The width-forcing member, fourth enumerator of `JPH_ActivationMode`. -/
def _JPH_ACTIVATION_MODE_FORCEU32 : Nat :=
  (enumValues JPH_ActivationMode_initialisers).getD 3 0

/-- The activation modes, in declaration order. -/
def JPH_ActivationMode.all : List JPH_ActivationMode :=
  [.JPH_ACTIVATION_MODE_ACTIVATE, .JPH_ACTIVATION_MODE_DONT_ACTIVATE]

/-! ### `JPH_ValidateResult` (joltc.h:71-79) -/

/-- The enumerators of `JPH_ValidateResult` that name an outcome of
`OnContactValidate`. -/
inductive JPH_ValidateResult where
  | JPH_VALIDATE_RESULT_ACCEPT_ALL_CONTACTS
  | JPH_VALIDATE_RESULT_ACCEPT_CONTACT
  | JPH_VALIDATE_RESULT_REJECT_CONTACT
  | JPH_VALIDATE_RESULT_REJECT_ALL_CONTACTS
  deriving DecidableEq, Repr

/-- Initialisers of the six enumerators of `JPH_ValidateResult`, as written:
`= 0`, `= 1`, `= 2`, `= 3`, none for `_JPH_VALIDATE_RESULT_NUM`,
`= 0x7fffffff`. -/
def JPH_ValidateResult_initialisers : List (Option Nat) :=
  [some 0, some 1, some 2, some 3, none, some 0x7fffffff]

/-- Place of an outcome among the enumerators of the declaration. -/
def JPH_ValidateResult.position : JPH_ValidateResult → Nat
  | .JPH_VALIDATE_RESULT_ACCEPT_ALL_CONTACTS => 0
  | .JPH_VALIDATE_RESULT_ACCEPT_CONTACT => 1
  | .JPH_VALIDATE_RESULT_REJECT_CONTACT => 2
  | .JPH_VALIDATE_RESULT_REJECT_ALL_CONTACTS => 3

/-- Numeric code of an outcome. -/
def JPH_ValidateResult.code (r : JPH_ValidateResult) : Nat :=
  (enumValues JPH_ValidateResult_initialisers).getD r.position 0

/-- The count sentinel, fifth enumerator of `JPH_ValidateResult`. -/
def _JPH_VALIDATE_RESULT_NUM : Nat := (enumValues JPH_ValidateResult_initialisers).getD 4 0

/-- The width-forcing member, sixth enumerator of `JPH_ValidateResult`. -/
def _JPH_VALIDATE_RESULT_FORCEU32 : Nat :=
  (enumValues JPH_ValidateResult_initialisers).getD 5 0

/-- The outcomes, in declaration order. -/
def JPH_ValidateResult.all : List JPH_ValidateResult :=
  [.JPH_VALIDATE_RESULT_ACCEPT_ALL_CONTACTS, .JPH_VALIDATE_RESULT_ACCEPT_CONTACT,
   .JPH_VALIDATE_RESULT_REJECT_CONTACT, .JPH_VALIDATE_RESULT_REJECT_ALL_CONTACTS]

/-! ### Plain structs (joltc.h:81-100) -/

/-- Declaration `struct JPH_Vec3 { float x; float y; float z; }` (joltc.h:81-85). -/
structure JPH_Vec3 where
  x : CFloat
  y : CFloat
  z : CFloat
  deriving DecidableEq, Repr

/-- Declaration `struct JPH_Quat { float x; float y; float z; float w; }` (joltc.h:87-92). -/
structure JPH_Quat where
  x : CFloat
  y : CFloat
  z : CFloat
  w : CFloat
  deriving DecidableEq, Repr

/-- Declaration `struct JPH_SubShapeIDPair` (joltc.h:94-100): two body identifiers, each
with a sub-shape identifier; no reference to a body. -/
structure JPH_SubShapeIDPair where
  Body1ID : JPH_BodyID
  subShapeID1 : JPH_SubShapeID
  Body2ID : JPH_BodyID
  subShapeID2 : JPH_SubShapeID
  deriving DecidableEq, Repr

/-! ### Objects behind the opaque handles (joltc.h:102-116)

The header declares these structs without their members.  Each is given the
content the calls that create it pass in, or the content the specification
gives it. -/

/-- The allocator made by `JPH_TempAllocator_Create(uint32_t size)`
(joltc.h:122). -/
structure JPH_TempAllocator where
  size : Nat
  deriving DecidableEq, Repr

/-- The job system made by `JPH_JobSystemThreadPool_Create(uint32_t maxJobs,
uint32_t maxBarriers, int inNumThreads)` (joltc.h:126). -/
structure JPH_JobSystemThreadPool where
  maxJobs : Nat
  maxBarriers : Nat
  inNumThreads : Int
  deriving DecidableEq, Repr

/-- The shape settings made by `JPH_BoxShapeSettings_Create(halfExtent,
convexRadius)` and `JPH_SphereShapeSettings_Create(radius)`
(joltc.h:135-136). -/
inductive JPH_ShapeSettings where
  | box (halfExtent : JPH_Vec3) (convexRadius : CFloat)
  | sphere (radius : CFloat)
  deriving DecidableEq, Repr

/-- Modelled from the spec: the members of the opaque `struct JPH_Body`
(joltc.h:113) are missing from the header.  It is the RigidBody of spec §3:
shape, world transform, linear and angular velocity, motion type, object
layer, activation flag and sensor flag, together with the identifier
`JPH_Body_GetID` reads and whether the body has been added to the
simulation (`JPH_BodyInterface_IsAdded`). -/
structure JPH_Body where
  id : JPH_BodyID
  shape : JPH_ShapeSettings
  position : JPH_Vec3
  rotation : JPH_Quat
  linearVelocity : JPH_Vec3
  angularVelocity : JPH_Vec3
  motionType : JPH_MotionType
  objectLayer : JPH_ObjectLayer
  active : Bool
  sensor : Bool
  added : Bool
  deriving DecidableEq, Repr

/-- Modelled from the spec: the members of the opaque
`struct JPH_CollideShapeResult` (joltc.h:115) are missing from the header.
It is one contact manifold of a body pair (spec §3 ContactManifold), of which
only the sub-shapes in contact and the penetration depth are kept. -/
structure JPH_CollideShapeResult where
  subShapeID1 : JPH_SubShapeID
  subShapeID2 : JPH_SubShapeID
  penetrationDepth : CFloat
  deriving DecidableEq, Repr

/-- A listener made by `JPH_ContactListener_Create` (joltc.h:213), known by
its handle. -/
structure JPH_ContactListener where
  handle : Nat
  deriving DecidableEq, Repr

/-! ### The callback table (joltc.h:193-210) -/

/-- Declaration `struct JPH_ContactListener_Procs`: four function pointers.  A `const T*`
parameter is the value it points to; a `void` result is `CVoid`. -/
structure JPH_ContactListener_Procs where
  OnContactValidate :
    JPH_ContactListener → JPH_Body → JPH_Body → JPH_CollideShapeResult → JPH_ValidateResult
  OnContactAdded : JPH_ContactListener → JPH_Body → JPH_Body → CVoid
  OnContactPersisted : JPH_ContactListener → JPH_Body → JPH_Body → CVoid
  OnContactRemoved : JPH_ContactListener → JPH_SubShapeIDPair → CVoid

/-- The members of a `JPH_SubShapeIDPair`, in declaration order. -/
def JPH_SubShapeIDPair.members (pair : JPH_SubShapeIDPair) :
    JPH_BodyID × JPH_SubShapeID × JPH_BodyID × JPH_SubShapeID :=
  (pair.Body1ID, pair.subShapeID1, pair.Body2ID, pair.subShapeID2)

/-- A type as a declaration of the header writes it. -/
inductive CType where
  | void
  | uint32_t
  | named (name : String)
  | pointer (pointee : String)
  | constPointer (pointee : String)
  deriving DecidableEq, Repr

/-- A parameter of a function or a member of a struct, as declared: its type
and its name. -/
structure CDeclarator where
  ctype : CType
  name : String
  deriving DecidableEq, Repr

/-- A member of a struct that is a pointer to a function, as declared: its
name, its result type and its parameters in order. -/
structure CFunctionPointer where
  name : String
  result : CType
  parameters : List CDeclarator
  deriving DecidableEq, Repr

/-- The declaration of `struct JPH_ContactListener_Procs` (joltc.h:193-210),
member by member as written. -/
def JPH_ContactListener_Procs_declaration : List CFunctionPointer :=
  [ { name := "OnContactValidate"
      result := .named "JPH_ValidateResult"
      parameters :=
        [ { ctype := .pointer "JPH_ContactListener", name := "listener" },
          { ctype := .constPointer "JPH_Body", name := "body1" },
          { ctype := .constPointer "JPH_Body", name := "body2" },
          { ctype := .constPointer "JPH_CollideShapeResult", name := "collisionResult" } ] },
    { name := "OnContactAdded"
      result := .void
      parameters :=
        [ { ctype := .pointer "JPH_ContactListener", name := "listener" },
          { ctype := .constPointer "JPH_Body", name := "body1" },
          { ctype := .constPointer "JPH_Body", name := "body2" } ] },
    { name := "OnContactPersisted"
      result := .void
      parameters :=
        [ { ctype := .pointer "JPH_ContactListener", name := "listener" },
          { ctype := .constPointer "JPH_Body", name := "body1" },
          { ctype := .constPointer "JPH_Body", name := "body2" } ] },
    { name := "OnContactRemoved"
      result := .void
      parameters :=
        [ { ctype := .pointer "JPH_ContactListener", name := "listener" },
          { ctype := .constPointer "JPH_SubShapeIDPair", name := "subShapePair" } ] } ]

/-- The declaration of `struct JPH_SubShapeIDPair` (joltc.h:94-100), member by
member as written. -/
def JPH_SubShapeIDPair_declaration : List CDeclarator :=
  [ { ctype := .named "JPH_BodyID", name := "Body1ID" },
    { ctype := .named "JPH_SubShapeID", name := "subShapeID1" },
    { ctype := .named "JPH_BodyID", name := "Body2ID" },
    { ctype := .named "JPH_SubShapeID", name := "subShapeID2" } ]

/-- The integer typedefs of the header (joltc.h:45-46) the members of
`JPH_SubShapeIDPair` are declared with: the type a typedef name stands for,
the type itself when it is no such name. -/
def resolveTypedef : CType → CType
  | .named "JPH_BodyID" => .uint32_t
  | .named "JPH_SubShapeID" => .uint32_t
  | t => t

/-- The member of the callback table with a given name. -/
def callbackNamed (name : String) : Option CFunctionPointer :=
  JPH_ContactListener_Procs_declaration.find? fun c => c.name == name

/-- Whether a declared type refers to a body: a pointer to `JPH_Body`, const
or not. -/
def CType.refersToBody : CType → Bool
  | .pointer "JPH_Body" => true
  | .constPointer "JPH_Body" => true
  | _ => false

/-- What a callback takes besides the listener it runs for, which every
callback is handed first: the types of its parameters after the first. -/
def CFunctionPointer.takes (c : CFunctionPointer) : List CType :=
  c.parameters.tail.map fun p => p.ctype

/-! ### Declared function types

A function of the header acts on the state `σ` reached through its handle
arguments and hands back a value of its declared result type. -/

/-- Declaration `void JPH_PhysicsSystem_Init(system, maxBodies, numBodyMutexes,
maxBodyPairs, maxContactConstraints, layer, objectVsBroadPhaseLayerFilter,
objectLayerPairFilter)` (joltc.h:150-154).  The `JPH_BroadPhaseLayer* layer`
argument is a table read at an object layer. -/
abbrev JPH_PhysicsSystem_Init_Sig (σ : Type) : Type :=
  σ → Nat → Nat → Nat → Nat → (JPH_ObjectLayer → JPH_BroadPhaseLayer) →
    JPH_ObjectVsBroadPhaseLayerFilter → JPH_ObjectLayerPairFilter → σ × CVoid

/-- Declaration `void JPH_PhysicsSystem_Update(system, deltaTime, collisionSteps,
integrationSubSteps, tempAlocator, jobSystem)` (joltc.h:157-159). -/
abbrev JPH_PhysicsSystem_Update_Sig (σ : Type) : Type :=
  σ → CFloat → Int → Int → JPH_TempAllocator → JPH_JobSystemThreadPool → σ × CVoid

/-- Declaration `void JPH_BodyInterface_SetLinearVelocity(interface, bodyID, velocity)`
(joltc.h:174). -/
abbrev JPH_BodyInterface_SetLinearVelocity_Sig (σ : Type) : Type :=
  σ → JPH_BodyID → JPH_Vec3 → σ × CVoid

/-- Declaration `void JPH_BodyInterface_SetMotionType(interface, bodyID, motionType,
activationMode)` (joltc.h:179). -/
abbrev JPH_BodyInterface_SetMotionType_Sig (σ : Type) : Type :=
  σ → JPH_BodyID → JPH_MotionType → JPH_ActivationMode → σ × CVoid

/-- Modelled from the spec: the members of the opaque
`struct JPH_BodyInterface` (joltc.h:112) are missing from the header.  It is
the Body Store of spec §2 and §4.7: the bodies whose handle is valid, each
under its BodyID.  Destroying a body invalidates its handle (spec §3), which
here removes the entry. -/
structure JPH_BodyInterface where
  bodies : List JPH_Body
  deriving DecidableEq, Repr

/-- Modelled from the spec: the error conditions of the Body Store (spec §4.7,
§7 (b)); the header declares no error type. -/
inductive BodyStoreError where
  | InvalidHandle
  deriving DecidableEq, Repr

/-- Modelled from the spec: whether a BodyID is a valid handle of the store
(spec §4.7: "require the body to currently be valid"). -/
def JPH_BodyInterface.isValid (interface : JPH_BodyInterface) (bodyID : JPH_BodyID) : Bool :=
  interface.bodies.any fun b => b.id == bodyID

/-- Modelled from the spec: the body a valid BodyID stands for. -/
def JPH_BodyInterface.body? (interface : JPH_BodyInterface) (bodyID : JPH_BodyID) :
    Option JPH_Body :=
  interface.bodies.find? fun b => b.id == bodyID

/-- Modelled from the spec: a mutator of the Body Store (spec §4.7).  It
requires the body to be valid and fails with `InvalidHandle` on a BodyID
that is not; on a valid one it rewrites that body and no other. -/
def JPH_BodyInterface.mutate (interface : JPH_BodyInterface) (bodyID : JPH_BodyID)
    (f : JPH_Body → JPH_Body) : Except BodyStoreError JPH_BodyInterface :=
  if interface.isValid bodyID then
    .ok { bodies := interface.bodies.map fun b => if b.id == bodyID then f b else b }
  else
    .error .InvalidHandle

/-- Modelled from the spec: what a C function declared `void` hands back after
a store operation: the store the operation leaves (the old one when it
failed, spec §7 (b): a failure "does not corrupt global state") and the one
value of `void`.  The error of a failed operation is not part of it. -/
def voidResult (interface : JPH_BodyInterface)
    (outcome : Except BodyStoreError JPH_BodyInterface) : JPH_BodyInterface × CVoid :=
  match outcome with
  | .ok interface' => (interface', ())
  | .error _ => (interface, ())

/-- Modelled from the spec: store operation behind
`JPH_BodyInterface_SetLinearVelocity` (spec §4.7). -/
def JPH_BodyInterface.setLinearVelocity (interface : JPH_BodyInterface)
    (bodyID : JPH_BodyID) (velocity : JPH_Vec3) : Except BodyStoreError JPH_BodyInterface :=
  interface.mutate bodyID fun b => { b with linearVelocity := velocity }

/-- Modelled from the spec: store operation behind
`JPH_BodyInterface_SetMotionType` (spec §4.7); the activation mode
`JPH_ACTIVATION_MODE_ACTIVATE` wakes the body. -/
def JPH_BodyInterface.setMotionType (interface : JPH_BodyInterface) (bodyID : JPH_BodyID)
    (motionType : JPH_MotionType) (activationMode : JPH_ActivationMode) :
    Except BodyStoreError JPH_BodyInterface :=
  interface.mutate bodyID fun b =>
    { b with
      motionType := motionType
      active := b.active || decide (activationMode = .JPH_ACTIVATION_MODE_ACTIVATE) }

/-- Modelled from the spec: body of `JPH_BodyInterface_SetLinearVelocity`
(joltc.h:174), result type `void` as declared. -/
def JPH_BodyInterface_SetLinearVelocity :
    JPH_BodyInterface_SetLinearVelocity_Sig JPH_BodyInterface :=
  fun interface bodyID velocity =>
    voidResult interface (interface.setLinearVelocity bodyID velocity)

/-- Modelled from the spec: body of `JPH_BodyInterface_SetMotionType`
(joltc.h:179), result type `void` as declared. -/
def JPH_BodyInterface_SetMotionType :
    JPH_BodyInterface_SetMotionType_Sig JPH_BodyInterface :=
  fun interface bodyID motionType activationMode =>
    voidResult interface (interface.setMotionType bodyID motionType activationMode)

/-- Modelled from the spec: body of `JPH_BodyInterface_DestroyBody`
(joltc.h:165).  Destroy invalidates the handle (spec §4.7). -/
def JPH_BodyInterface_DestroyBody (interface : JPH_BodyInterface) (bodyID : JPH_BodyID) :
    JPH_BodyInterface × CVoid :=
  ({ bodies := interface.bodies.filter fun b => !(b.id == bodyID) }, ())

/-- Modelled from the spec: body of `JPH_BodyInterface_AddBody` (joltc.h:169):
the body begins to take part in steps (spec §4.7). -/
def JPH_BodyInterface_AddBody (interface : JPH_BodyInterface) (bodyID : JPH_BodyID)
    (activation : JPH_ActivationMode) : JPH_BodyInterface × CVoid :=
  voidResult interface <| interface.mutate bodyID fun b =>
    { b with
      added := true
      active := b.active || decide (activation = .JPH_ACTIVATION_MODE_ACTIVATE) }

/-- Modelled from the spec: body of `JPH_BodyInterface_RemoveBody`
(joltc.h:170): the opposite of add, the body persists as data (spec §4.7). -/
def JPH_BodyInterface_RemoveBody (interface : JPH_BodyInterface) (bodyID : JPH_BodyID) :
    JPH_BodyInterface × CVoid :=
  voidResult interface <| interface.mutate bodyID fun b => { b with added := false }

/-- Modelled from the spec: body of `JPH_BodyInterface_GetLinearVelocity`
(joltc.h:175): the value written through the `velocity` pointer, `none` when
the BodyID is not valid and nothing is written. -/
def JPH_BodyInterface_GetLinearVelocity (interface : JPH_BodyInterface)
    (bodyID : JPH_BodyID) : Option JPH_Vec3 :=
  (interface.body? bodyID).map fun b => b.linearVelocity

/-- Modelled from the spec: body of `JPH_BodyInterface_GetMotionType`
(joltc.h:178), `none` when the BodyID is not valid. -/
def JPH_BodyInterface_GetMotionType (interface : JPH_BodyInterface)
    (bodyID : JPH_BodyID) : Option JPH_MotionType :=
  (interface.body? bodyID).map fun b => b.motionType

/-- A call of the body interface that creates no body. -/
inductive BodyCall where
  | DestroyBody (bodyID : JPH_BodyID)
  | AddBody (bodyID : JPH_BodyID) (activation : JPH_ActivationMode)
  | RemoveBody (bodyID : JPH_BodyID)
  | SetLinearVelocity (bodyID : JPH_BodyID) (velocity : JPH_Vec3)
  | SetMotionType (bodyID : JPH_BodyID) (motionType : JPH_MotionType)
      (activationMode : JPH_ActivationMode)
  deriving DecidableEq, Repr

/-- The store a call of the body interface leaves. -/
def BodyCall.run (call : BodyCall) (interface : JPH_BodyInterface) : JPH_BodyInterface :=
  match call with
  | .DestroyBody bodyID => (JPH_BodyInterface_DestroyBody interface bodyID).1
  | .AddBody bodyID activation => (JPH_BodyInterface_AddBody interface bodyID activation).1
  | .RemoveBody bodyID => (JPH_BodyInterface_RemoveBody interface bodyID).1
  | .SetLinearVelocity bodyID velocity =>
      (JPH_BodyInterface_SetLinearVelocity interface bodyID velocity).1
  | .SetMotionType bodyID motionType activationMode =>
      (JPH_BodyInterface_SetMotionType interface bodyID motionType activationMode).1

/-- The store a sequence of calls leaves, first call first. -/
def runBodyCalls (calls : List BodyCall) (interface : JPH_BodyInterface) : JPH_BodyInterface :=
  calls.foldl (fun s call => call.run s) interface

/-! ### Physics system and the contact pipeline (spec §4.3-4.6) -/

/-- The three lifecycle callbacks of `JPH_ContactListener_Procs`. -/
inductive ContactCallback where
  | OnContactAdded
  | OnContactPersisted
  | OnContactRemoved
  deriving DecidableEq, Repr

/-- Modelled from the spec: one lifecycle callback sent to the listener, with
the (body pair, sub-shape pair) it is sent for (spec §4.4).  `OnContactAdded` and `OnContactPersisted`
receive the two bodies of the pair, `OnContactRemoved` the pair itself. -/
structure ContactEvent where
  callback : ContactCallback
  pair : JPH_SubShapeIDPair
  deriving DecidableEq, Repr

/-- Modelled from the spec: what the solver writes back for a body (spec
§4.5). -/
structure BodyMotion where
  position : JPH_Vec3
  rotation : JPH_Quat
  linearVelocity : JPH_Vec3
  angularVelocity : JPH_Vec3
  active : Bool
  deriving DecidableEq, Repr

/-- Modelled from the spec: the geometric and numeric kernels of the engine
(spec §4.3-4.5), which compute on floats and are taken as given: the
bounding-volume overlap test of the broad phase, the exact shape-vs-shape
test of the narrow phase (the manifolds of a body pair), and the constraint
solver with its integrator (the motion of a body after a step of
`deltaTime / collisionSteps` with `integrationSubSteps` sub-steps, given the
accepted manifolds and all bodies). -/
structure Kernels where
  boundsOverlap : JPH_Body → JPH_Body → Bool
  collide : JPH_Body → JPH_Body → List JPH_CollideShapeResult
  solve : CFloat → Int → Int → List JPH_SubShapeIDPair → List JPH_Body → JPH_Body → BodyMotion

/-- Modelled from the spec: the members of the opaque
`struct JPH_PhysicsSystem` (joltc.h:105) are missing from the header.  It
holds the arguments of `JPH_PhysicsSystem_Init` (joltc.h:150-154), the listener
of `JPH_PhysicsSystem_SetContactListener`, the Body Store
(`JPH_PhysicsSystem_GetBodyInterface`), the footprint of the pairs that had a
manifold in the last step (spec §3 ContactManifold), and the callbacks sent
to the listener so far, oldest first. -/
structure JPH_PhysicsSystem where
  maxBodies : Nat
  numBodyMutexes : Nat
  maxBodyPairs : Nat
  maxContactConstraints : Nat
  layer : JPH_ObjectLayer → JPH_BroadPhaseLayer
  objectVsBroadPhaseLayerFilter : JPH_ObjectVsBroadPhaseLayerFilter
  objectLayerPairFilter : JPH_ObjectLayerPairFilter
  bodyInterface : JPH_BodyInterface
  contactListener : Option JPH_ContactListener
  contacts : List JPH_SubShapeIDPair
  dispatched : List ContactEvent

/-- Modelled from the spec: body of `JPH_PhysicsSystem_Create` (joltc.h:148): a
system that holds no body, no listener and no contact, has sent no callback,
and lets nothing collide until it is initialised. -/
def JPH_PhysicsSystem_Create : JPH_PhysicsSystem :=
  { maxBodies := 0, numBodyMutexes := 0, maxBodyPairs := 0, maxContactConstraints := 0
    layer := fun _ => 0
    objectVsBroadPhaseLayerFilter := fun _ _ => false
    objectLayerPairFilter := fun _ _ => false
    bodyInterface := { bodies := [] }
    contactListener := none
    contacts := []
    dispatched := [] }

/-- Modelled from the spec: body of `JPH_PhysicsSystem_Init`
(joltc.h:150-154): the capacities, the layer table and the two filters are
taken over; no pair has a manifold yet. -/
def JPH_PhysicsSystem_Init : JPH_PhysicsSystem_Init_Sig JPH_PhysicsSystem :=
  fun system maxBodies numBodyMutexes maxBodyPairs maxContactConstraints layer
      objectVsBroadPhaseLayerFilter objectLayerPairFilter =>
    ({ system with
        maxBodies := maxBodies
        numBodyMutexes := numBodyMutexes
        maxBodyPairs := maxBodyPairs
        maxContactConstraints := maxContactConstraints
        layer := layer
        objectVsBroadPhaseLayerFilter := objectVsBroadPhaseLayerFilter
        objectLayerPairFilter := objectLayerPairFilter
        contacts := [] }, ())

/-- Modelled from the spec: body of `JPH_PhysicsSystem_SetContactListener`
(joltc.h:162). -/
def JPH_PhysicsSystem_SetContactListener (system : JPH_PhysicsSystem)
    (listener : Option JPH_ContactListener) : JPH_PhysicsSystem × CVoid :=
  ({ system with contactListener := listener }, ())

/-- Modelled from the spec: the body pairs the broad phase looks at (spec
§4.3): every pair of entries of the store, once, the earlier entry first. -/
def bodyPairs {α : Type} : List α → List (α × α)
  | [] => []
  | a :: rest => rest.map (fun b => (a, b)) ++ bodyPairs rest

/-- Modelled from the spec: the Broad-Phase Index (spec §4.3).  Candidate
pairs are the pairs of added bodies whose bounds overlap, filtered by layer
compatibility: the object-vs-broad-phase filter decides whether the object
layer of the first body is considered against the broad-phase layer of the
second. -/
def broadPhase (k : Kernels) (system : JPH_PhysicsSystem) : List (JPH_Body × JPH_Body) :=
  (bodyPairs system.bodyInterface.bodies).filter fun p =>
    p.1.added && p.2.added
      && system.objectVsBroadPhaseLayerFilter p.1.objectLayer (system.layer p.2.objectLayer)
      && k.boundsOverlap p.1 p.2

/-- Modelled from the spec: `OnContactValidate` over the manifolds of one body
pair (spec §4.4).  `AcceptAllContacts` accepts this and the remaining
manifolds of the pair, `AcceptContact` this one, `RejectContact` drops this
one, `RejectAllContacts` drops this one and the remainder.  A dropped
manifold is not tracked for the lifecycle callbacks either. -/
def validateManifolds (validate : JPH_CollideShapeResult → JPH_ValidateResult) :
    List JPH_CollideShapeResult → List JPH_CollideShapeResult
  | [] => []
  | r :: rest =>
    match validate r with
    | .JPH_VALIDATE_RESULT_ACCEPT_ALL_CONTACTS => r :: rest
    | .JPH_VALIDATE_RESULT_ACCEPT_CONTACT => r :: validateManifolds validate rest
    | .JPH_VALIDATE_RESULT_REJECT_CONTACT => validateManifolds validate rest
    | .JPH_VALIDATE_RESULT_REJECT_ALL_CONTACTS => []

/-- Modelled from the spec: the validation in force (spec §7 (c)): the
`OnContactValidate` of the callback table when a listener is installed,
acceptance by default when none is. -/
def validatorOf (procs : JPH_ContactListener_Procs) (system : JPH_PhysicsSystem)
    (body1 body2 : JPH_Body) : JPH_CollideShapeResult → JPH_ValidateResult :=
  match system.contactListener with
  | some listener => procs.OnContactValidate listener body1 body2
  | none => fun _ => .JPH_VALIDATE_RESULT_ACCEPT_ALL_CONTACTS

/-- Modelled from the spec: the accepted manifolds of one candidate pair, each
under its (body pair, sub-shape pair) key. -/
def pairManifolds (k : Kernels) (procs : JPH_ContactListener_Procs)
    (system : JPH_PhysicsSystem) (p : JPH_Body × JPH_Body) : List JPH_SubShapeIDPair :=
  (validateManifolds (validatorOf procs system p.1 p.2) (k.collide p.1 p.2)).map fun r =>
    { Body1ID := p.1.id, subShapeID1 := r.subShapeID1,
      Body2ID := p.2.id, subShapeID2 := r.subShapeID2 }

/-- Modelled from the spec: the Narrow-Phase / Contact Pipeline (spec §4.4):
for each broad-phase candidate pair not excluded by the object-layer pair
filter, the accepted manifolds; one entry per (body pair, sub-shape pair). -/
def narrowPhase (k : Kernels) (procs : JPH_ContactListener_Procs)
    (system : JPH_PhysicsSystem) : List JPH_SubShapeIDPair :=
  (((broadPhase k system).filter fun p =>
      system.objectLayerPairFilter p.1.objectLayer p.2.objectLayer).flatMap
    (pairManifolds k procs system)).dedup

/-- Modelled from the spec: the lifecycle state machine per (body pair,
sub-shape pair) (spec §4.4), from the pairs that had a manifold last step
(`previous`) and those that have one this step (`current`). -/
def lifecycleCallbacks (previous current : List JPH_SubShapeIDPair) : List ContactEvent :=
  (current.map fun pair =>
      if pair ∈ previous then { callback := .OnContactPersisted, pair := pair }
      else { callback := .OnContactAdded, pair := pair })
    ++ (previous.filter fun pair => decide (pair ∉ current)).map fun pair =>
      { callback := .OnContactRemoved, pair := pair }

/-- Modelled from the spec: the callbacks a step sends (spec §7 (c)): the
lifecycle callbacks when a listener is installed, none when none is. -/
def stepCallbacks (k : Kernels) (procs : JPH_ContactListener_Procs)
    (system : JPH_PhysicsSystem) : List ContactEvent :=
  match system.contactListener with
  | some _ => lifecycleCallbacks system.contacts (narrowPhase k procs system)
  | none => []

/-- Modelled from the spec: solver and integration write-back for one body
(spec §4.5).  A body that is not in the simulation is left alone; the solver
never writes velocity or position back for a Static body; it moves a
Kinematic body along but never writes its velocity; a Dynamic body is fully
simulated. -/
def solveBody (k : Kernels) (deltaTime : CFloat) (collisionSteps integrationSubSteps : Int)
    (manifolds : List JPH_SubShapeIDPair) (bodies : List JPH_Body) (b : JPH_Body) : JPH_Body :=
  if b.added then
    match b.motionType with
    | .JPH_MOTION_TYPE_STATIC => b
    | .JPH_MOTION_TYPE_KINEMATIC =>
      let m := k.solve deltaTime collisionSteps integrationSubSteps manifolds bodies b
      { b with position := m.position, rotation := m.rotation }
    | .JPH_MOTION_TYPE_DYNAMIC =>
      let m := k.solve deltaTime collisionSteps integrationSubSteps manifolds bodies b
      { b with
        position := m.position, rotation := m.rotation
        linearVelocity := m.linearVelocity, angularVelocity := m.angularVelocity
        active := m.active }
  else b

/-- Modelled from the spec: one repetition of the detect-and-solve pipeline
(spec §4.6): broad phase, narrow phase, solve and integrate, listener
dispatch. -/
def collisionStep (k : Kernels) (procs : JPH_ContactListener_Procs) (deltaTime : CFloat)
    (collisionSteps integrationSubSteps : Int) (system : JPH_PhysicsSystem) :
    JPH_PhysicsSystem :=
  let manifolds := narrowPhase k procs system
  { system with
    bodyInterface :=
      { bodies := system.bodyInterface.bodies.map
          (solveBody k deltaTime collisionSteps integrationSubSteps manifolds
            system.bodyInterface.bodies) }
    contacts := manifolds
    dispatched := system.dispatched ++ stepCallbacks k procs system }

/-- Modelled from the spec: body of `JPH_PhysicsSystem_Update`
(joltc.h:157-159): `collisionSteps` repetitions of the pipeline within one
call (spec §4.6), under the callback table in force; result type `void` as
declared. -/
def JPH_PhysicsSystem_Update (k : Kernels) (procs : JPH_ContactListener_Procs) :
    JPH_PhysicsSystem_Update_Sig JPH_PhysicsSystem :=
  fun system deltaTime collisionSteps integrationSubSteps _tempAlocator _jobSystem =>
    (Nat.iterate (collisionStep k procs deltaTime collisionSteps integrationSubSteps)
      collisionSteps.toNat system, ())

/-- A call of the interface on an initialised system that creates no body. -/
inductive ApiCall where
  | Update (deltaTime : CFloat) (collisionSteps integrationSubSteps : Int)
      (tempAlocator : JPH_TempAllocator) (jobSystem : JPH_JobSystemThreadPool)
  | SetContactListener (listener : Option JPH_ContactListener)
  | Body (call : BodyCall)

/-- The system a call leaves. -/
def ApiCall.run (k : Kernels) (procs : JPH_ContactListener_Procs) (call : ApiCall)
    (system : JPH_PhysicsSystem) : JPH_PhysicsSystem :=
  match call with
  | .Update deltaTime collisionSteps integrationSubSteps tempAlocator jobSystem =>
      (JPH_PhysicsSystem_Update k procs system deltaTime collisionSteps integrationSubSteps
        tempAlocator jobSystem).1
  | .SetContactListener listener => (JPH_PhysicsSystem_SetContactListener system listener).1
  | .Body call => { system with bodyInterface := call.run system.bodyInterface }

/-- The system a run of calls leaves, first call first. -/
def runCalls (k : Kernels) (procs : JPH_ContactListener_Procs) (calls : List ApiCall)
    (system : JPH_PhysicsSystem) : JPH_PhysicsSystem :=
  calls.foldl (fun s call => call.run k procs s) system

/-- Whether the layer filters of a system reject a pair of object layers: the
object-vs-broad-phase filter rejects the first layer against the broad-phase
layer of the second, or the object-layer pair filter rejects the two. -/
def layersRejected (system : JPH_PhysicsSystem) (layer1 layer2 : JPH_ObjectLayer) : Bool :=
  !(system.objectVsBroadPhaseLayerFilter layer1 (system.layer layer2))
    || !(system.objectLayerPairFilter layer1 layer2)

/-! ### Consecutive steps -/

/-- The system the later of two consecutive steps starts from: the system the
earlier step leaves, after the body-interface calls made between the two
(none between two steps of one call of `JPH_PhysicsSystem_Update`). -/
def laterStart (k : Kernels) (procs : JPH_ContactListener_Procs) (deltaTime : CFloat)
    (collisionSteps integrationSubSteps : Int) (between : List BodyCall)
    (earlier : JPH_PhysicsSystem) : JPH_PhysicsSystem :=
  { collisionStep k procs deltaTime collisionSteps integrationSubSteps earlier with
    bodyInterface :=
      runBodyCalls between
        (collisionStep k procs deltaTime collisionSteps integrationSubSteps
          earlier).bodyInterface }

/-! ### Pairs the layer filters reject -/

/-- Whether a (body pair, sub-shape pair) is one of a given pair of bodies. -/
def JPH_SubShapeIDPair.isOf (pair : JPH_SubShapeIDPair) (body1ID body2ID : JPH_BodyID) :
    Prop :=
  pair.Body1ID = body1ID ∧ pair.Body2ID = body2ID

/-- A pair of bodies the layer filters of a system reject and for which the
system holds no footprint and has sent no callback: whatever bodies stand
under the two BodyIDs, their object layers are rejected; no pair that had a
manifold last step and no callback sent so far is one of the two bodies. -/
structure PairFilteredOut (system : JPH_PhysicsSystem) (body1ID body2ID : JPH_BodyID) :
    Prop where
  rejected : ∀ b1 ∈ system.bodyInterface.bodies, ∀ b2 ∈ system.bodyInterface.bodies,
    b1.id = body1ID → b2.id = body2ID →
      layersRejected system b1.objectLayer b2.objectLayer = true
  noFootprint : ∀ pair ∈ system.contacts, ¬ pair.isOf body1ID body2ID
  noCallback : ∀ e ∈ system.dispatched, ¬ e.pair.isOf body1ID body2ID

/-! ### A concrete scene

The scenario of spec §8: two spheres of radius 1, a Static one at the origin
and a Dynamic one above it.  Floats are written as their bit patterns. -/

/-- The vector `(0, 0, 0)`. -/
def zeroVec : JPH_Vec3 := { x := 0, y := 0, z := 0 }

/-- The identity rotation `(0, 0, 0, 1)`. -/
def identityQuat : JPH_Quat := { x := 0, y := 0, z := 0, w := 0x3f800000 }

/-- A sphere of radius 1, added to the simulation and awake. -/
def sphereBody (id : JPH_BodyID) (position : JPH_Vec3) (motionType : JPH_MotionType)
    (objectLayer : JPH_ObjectLayer) : JPH_Body :=
  { id := id, shape := .sphere 0x3f800000, position := position, rotation := identityQuat
    linearVelocity := zeroVec, angularVelocity := zeroVec, motionType := motionType
    objectLayer := objectLayer, active := true, sensor := false, added := true }

/-- The Static sphere at the origin, BodyID 1, object layer 0. -/
def groundSphere : JPH_Body := sphereBody 1 zeroVec .JPH_MOTION_TYPE_STATIC 0

/-- The Dynamic sphere at `(0, 5, 0)`, BodyID 2, object layer 1. -/
def fallingSphere : JPH_Body :=
  sphereBody 2 { x := 0, y := 0x40a00000, z := 0 } .JPH_MOTION_TYPE_DYNAMIC 1

/-- The store holding the two spheres. -/
def sceneBodies : JPH_BodyInterface := { bodies := [groundSphere, fallingSphere] }

/-- Kernels under which all bounds overlap, every pair touches in one
manifold, and the solver gives every body the velocity `(0, -1, 0)`. -/
def sceneKernels : Kernels where
  boundsOverlap := fun _ _ => true
  collide := fun _ _ => [{ subShapeID1 := 0, subShapeID2 := 0, penetrationDepth := 0 }]
  solve := fun _ _ _ _ _ b =>
    { position := b.position, rotation := b.rotation
      linearVelocity := { x := 0, y := 0xbf800000, z := 0 }
      angularVelocity := b.angularVelocity, active := true }

/-- A callback table that accepts every contact. -/
def acceptingProcs : JPH_ContactListener_Procs where
  OnContactValidate := fun _ _ _ _ => .JPH_VALIDATE_RESULT_ACCEPT_ALL_CONTACTS
  OnContactAdded := fun _ _ _ => ()
  OnContactPersisted := fun _ _ _ => ()
  OnContactRemoved := fun _ _ => ()

/-- A system created, initialised with `JPH_PhysicsSystem_Init` under a given
object-layer pair filter (every object layer its own broad-phase layer, all
of them considered against each other), given a listener, and holding the
two spheres. -/
def sceneSystem (objectLayerPairFilter : JPH_ObjectLayerPairFilter) : JPH_PhysicsSystem :=
  { (JPH_PhysicsSystem_SetContactListener
      (JPH_PhysicsSystem_Init JPH_PhysicsSystem_Create 1024 0 1024 1024
        (fun objectLayer => objectLayer) (fun _ _ => true) objectLayerPairFilter).1
      (some { handle := 0 })).1 with
    bodyInterface := sceneBodies }

/-- The scene in which all layers collide. -/
def collidingScene : JPH_PhysicsSystem := sceneSystem fun _ _ => true

/-- The scene in which only bodies of the same object layer collide. -/
def separatedScene : JPH_PhysicsSystem := sceneSystem fun layer1 layer2 => layer1 == layer2

/-- The (body pair, sub-shape pair) of the two spheres. -/
def spherePair : JPH_SubShapeIDPair :=
  { Body1ID := 1, subShapeID1 := 0, Body2ID := 2, subShapeID2 := 0 }

end JoltC

namespace JoltC

/-! ## Theorems on the declarations -/

/-- C3: JPH_ValidateResult has exactly four outcomes, AcceptAllContacts,
AcceptContact, RejectContact and RejectAllContacts, with the codes 0, 1, 2, 3
in that order; the codes are pairwise distinct (the code map is injective),
and every code strictly below `_JPH_VALIDATE_RESULT_NUM` is the code of
exactly one outcome. -/
theorem validateResult_four_outcomes :
    (∀ r : JPH_ValidateResult,
        r = .JPH_VALIDATE_RESULT_ACCEPT_ALL_CONTACTS ∨ r = .JPH_VALIDATE_RESULT_ACCEPT_CONTACT
          ∨ r = .JPH_VALIDATE_RESULT_REJECT_CONTACT
          ∨ r = .JPH_VALIDATE_RESULT_REJECT_ALL_CONTACTS)
      ∧ JPH_ValidateResult.all.Nodup ∧ JPH_ValidateResult.all.length = 4
      ∧ JPH_ValidateResult.code .JPH_VALIDATE_RESULT_ACCEPT_ALL_CONTACTS = 0
      ∧ JPH_ValidateResult.code .JPH_VALIDATE_RESULT_ACCEPT_CONTACT = 1
      ∧ JPH_ValidateResult.code .JPH_VALIDATE_RESULT_REJECT_CONTACT = 2
      ∧ JPH_ValidateResult.code .JPH_VALIDATE_RESULT_REJECT_ALL_CONTACTS = 3
      ∧ Function.Injective JPH_ValidateResult.code
      ∧ ∀ c : Nat, c < _JPH_VALIDATE_RESULT_NUM → ∃! r : JPH_ValidateResult, r.code = c := by
  refine ⟨fun r => by cases r <;> simp, by decide, rfl, rfl, rfl, rfl, rfl, ?_, ?_⟩
  · intro a b h
    cases a <;> cases b <;> first | rfl | exact absurd h (by decide)
  · intro c hc
    have hc' : c < 4 := hc
    interval_cases c
    · exact ⟨.JPH_VALIDATE_RESULT_ACCEPT_ALL_CONTACTS, rfl,
        fun r h => by cases r <;> first | rfl | exact absurd h (by decide)⟩
    · exact ⟨.JPH_VALIDATE_RESULT_ACCEPT_CONTACT, rfl,
        fun r h => by cases r <;> first | rfl | exact absurd h (by decide)⟩
    · exact ⟨.JPH_VALIDATE_RESULT_REJECT_CONTACT, rfl,
        fun r h => by cases r <;> first | rfl | exact absurd h (by decide)⟩
    · exact ⟨.JPH_VALIDATE_RESULT_REJECT_ALL_CONTACTS, rfl,
        fun r h => by cases r <;> first | rfl | exact absurd h (by decide)⟩

/-- C10: in each of JPH_MotionType, JPH_ActivationMode and JPH_ValidateResult
the real enumerators are pairwise distinct and complete, the count sentinel
equals their number (3, 2, 4), every
real enumerator has a code strictly below the sentinel, the sentinel is
strictly below the FORCEU32 member, which is 0x7fffffff = 2^31 - 1, and
every member of the enum fits a signed 32-bit integer. -/
theorem enum_sentinels_count_and_fit :
    (JPH_MotionType.all.Nodup
        ∧ _JPH_MOTION_TYPE__NUM = JPH_MotionType.all.length ∧ _JPH_MOTION_TYPE__NUM = 3
        ∧ (∀ m : JPH_MotionType, m ∈ JPH_MotionType.all ∧ m.code < _JPH_MOTION_TYPE__NUM)
        ∧ _JPH_MOTION_TYPE__NUM < _JPH_MOTION_TYPE_FORCEU32
        ∧ _JPH_MOTION_TYPE_FORCEU32 = 0x7fffffff ∧ _JPH_MOTION_TYPE_FORCEU32 = 2 ^ 31 - 1
        ∧ ∀ v ∈ enumValues JPH_MotionType_initialisers, v ≤ INT32_MAX)
      ∧ (JPH_ActivationMode.all.Nodup
        ∧ _JPH_ACTIVATION_MODE_NUM = JPH_ActivationMode.all.length
        ∧ _JPH_ACTIVATION_MODE_NUM = 2
        ∧ (∀ a : JPH_ActivationMode,
            a ∈ JPH_ActivationMode.all ∧ a.code < _JPH_ACTIVATION_MODE_NUM)
        ∧ _JPH_ACTIVATION_MODE_NUM < _JPH_ACTIVATION_MODE_FORCEU32
        ∧ _JPH_ACTIVATION_MODE_FORCEU32 = 0x7fffffff
        ∧ _JPH_ACTIVATION_MODE_FORCEU32 = 2 ^ 31 - 1
        ∧ ∀ v ∈ enumValues JPH_ActivationMode_initialisers, v ≤ INT32_MAX)
      ∧ (JPH_ValidateResult.all.Nodup
        ∧ _JPH_VALIDATE_RESULT_NUM = JPH_ValidateResult.all.length
        ∧ _JPH_VALIDATE_RESULT_NUM = 4
        ∧ (∀ r : JPH_ValidateResult,
            r ∈ JPH_ValidateResult.all ∧ r.code < _JPH_VALIDATE_RESULT_NUM)
        ∧ _JPH_VALIDATE_RESULT_NUM < _JPH_VALIDATE_RESULT_FORCEU32
        ∧ _JPH_VALIDATE_RESULT_FORCEU32 = 0x7fffffff
        ∧ _JPH_VALIDATE_RESULT_FORCEU32 = 2 ^ 31 - 1
        ∧ ∀ v ∈ enumValues JPH_ValidateResult_initialisers, v ≤ INT32_MAX) := by
  refine ⟨⟨by decide, rfl, rfl, fun m => by cases m <;> decide, by decide, rfl, by decide,
      by decide⟩,
    ⟨by decide, rfl, rfl, fun a => by cases a <;> decide, by decide, rfl, by decide,
      by decide⟩,
    ⟨by decide, rfl, rfl, fun r => by cases r <;> decide, by decide, rfl, by decide,
      by decide⟩⟩

/-- C5: the callback table JPH_ContactListener_Procs consists of exactly four
callbacks, OnContactValidate, OnContactAdded, OnContactPersisted and
OnContactRemoved, each handed first the listener it runs for.  Besides it,
OnContactValidate takes two bodies and a collision result and returns a
JPH_ValidateResult; OnContactAdded and OnContactPersisted each take two
bodies and return nothing; OnContactRemoved takes only a JPH_SubShapeIDPair,
none of its parameters refers to a body, and it returns nothing.  A
JPH_SubShapeIDPair is four 32-bit identifiers, two of bodies and two of
sub-shapes, and holds no body. -/
theorem contactListener_procs_four_callbacks :
    JPH_ContactListener_Procs_declaration.length = 4
      ∧ JPH_ContactListener_Procs_declaration.map (fun c => c.name)
        = ["OnContactValidate", "OnContactAdded", "OnContactPersisted", "OnContactRemoved"]
      ∧ (∀ c ∈ JPH_ContactListener_Procs_declaration,
          c.parameters.head?
            = some { ctype := .pointer "JPH_ContactListener", name := "listener" })
      ∧ (callbackNamed "OnContactValidate").map (fun c => (c.takes, c.result))
        = some ([.constPointer "JPH_Body", .constPointer "JPH_Body",
            .constPointer "JPH_CollideShapeResult"], .named "JPH_ValidateResult")
      ∧ (callbackNamed "OnContactAdded").map (fun c => (c.takes, c.result))
        = some ([.constPointer "JPH_Body", .constPointer "JPH_Body"], .void)
      ∧ (callbackNamed "OnContactPersisted").map (fun c => (c.takes, c.result))
        = some ([.constPointer "JPH_Body", .constPointer "JPH_Body"], .void)
      ∧ (callbackNamed "OnContactRemoved").map (fun c => (c.takes, c.result))
        = some ([.constPointer "JPH_SubShapeIDPair"], .void)
      ∧ (∀ c ∈ JPH_ContactListener_Procs_declaration, c.name = "OnContactRemoved" →
          ∀ p ∈ c.parameters, p.ctype.refersToBody = false)
      ∧ JPH_SubShapeIDPair_declaration.map (fun d => (d.name, resolveTypedef d.ctype))
        = [("Body1ID", .uint32_t), ("subShapeID1", .uint32_t), ("Body2ID", .uint32_t),
            ("subShapeID2", .uint32_t)]
      ∧ Function.Bijective
        (JPH_SubShapeIDPair.members : JPH_SubShapeIDPair →
          JPH_BodyID × JPH_SubShapeID × JPH_BodyID × JPH_SubShapeID) := by
  refine ⟨rfl, by decide, by decide, by decide, by decide, by decide, by decide, by decide,
    by decide, ⟨?_, ?_⟩⟩
  · rintro ⟨a, b, c, d⟩ ⟨a', b', c', d'⟩ h
    simp only [JPH_SubShapeIDPair.members, Prod.mk.injEq] at h
    obtain ⟨rfl, rfl, rfl, rfl⟩ := h
    rfl
  · rintro ⟨a, b, c, d⟩
    exact ⟨⟨a, b, c, d⟩, rfl⟩

/-! ## Theorems on the step -/

/-- The solver keeps the identifier of a body. -/
theorem solveBody_id (k : Kernels) (deltaTime : CFloat)
    (collisionSteps integrationSubSteps : Int) (manifolds : List JPH_SubShapeIDPair)
    (bodies : List JPH_Body) (b : JPH_Body) :
    (solveBody k deltaTime collisionSteps integrationSubSteps manifolds bodies b).id = b.id := by
  unfold solveBody
  split
  · split <;> rfl
  · rfl

/-- The solver keeps the object layer of a body. -/
theorem solveBody_objectLayer (k : Kernels) (deltaTime : CFloat)
    (collisionSteps integrationSubSteps : Int) (manifolds : List JPH_SubShapeIDPair)
    (bodies : List JPH_Body) (b : JPH_Body) :
    (solveBody k deltaTime collisionSteps integrationSubSteps manifolds bodies b).objectLayer
      = b.objectLayer := by
  unfold solveBody
  split
  · split <;> rfl
  · rfl

/-- The solver leaves a Static body as it is. -/
theorem solveBody_static (k : Kernels) (deltaTime : CFloat)
    (collisionSteps integrationSubSteps : Int) (manifolds : List JPH_SubShapeIDPair)
    (bodies : List JPH_Body) (b : JPH_Body) (h : b.motionType = .JPH_MOTION_TYPE_STATIC) :
    solveBody k deltaTime collisionSteps integrationSubSteps manifolds bodies b = b := by
  unfold solveBody
  split
  · simp [h]
  · rfl

/-- A step maps the body of a BodyID through the solver. -/
theorem body?_collisionStep (k : Kernels) (procs : JPH_ContactListener_Procs)
    (deltaTime : CFloat) (collisionSteps integrationSubSteps : Int)
    (system : JPH_PhysicsSystem) (bodyID : JPH_BodyID) :
    (collisionStep k procs deltaTime collisionSteps integrationSubSteps
        system).bodyInterface.body? bodyID
      = (system.bodyInterface.body? bodyID).map
          (solveBody k deltaTime collisionSteps integrationSubSteps
            (narrowPhase k procs system) system.bodyInterface.bodies) := by
  simp only [collisionStep, JPH_BodyInterface.body?, List.find?_map]
  have hp : ((fun b : JPH_Body => b.id == bodyID) ∘
      solveBody k deltaTime collisionSteps integrationSubSteps (narrowPhase k procs system)
        system.bodyInterface.bodies) = fun b : JPH_Body => b.id == bodyID := by
    funext b
    simp [Function.comp, solveBody_id]
  rw [hp]

/-- A step leaves the body of a BodyID as it is when that body is Static. -/
theorem body?_collisionStep_static (k : Kernels) (procs : JPH_ContactListener_Procs)
    (deltaTime : CFloat) (collisionSteps integrationSubSteps : Int)
    (system : JPH_PhysicsSystem) (bodyID : JPH_BodyID) (b : JPH_Body)
    (hb : system.bodyInterface.body? bodyID = some b)
    (hs : b.motionType = .JPH_MOTION_TYPE_STATIC) :
    (collisionStep k procs deltaTime collisionSteps integrationSubSteps
        system).bodyInterface.body? bodyID = some b := by
  rw [body?_collisionStep, hb, Option.map_some', solveBody_static _ _ _ _ _ _ _ hs]

/-- Any number of steps leaves the body of a BodyID as it is when that body
is Static. -/
theorem body?_iterate_collisionStep_static (k : Kernels) (procs : JPH_ContactListener_Procs)
    (deltaTime : CFloat) (collisionSteps integrationSubSteps : Int) (n : Nat)
    (system : JPH_PhysicsSystem) (bodyID : JPH_BodyID) (b : JPH_Body)
    (hb : system.bodyInterface.body? bodyID = some b)
    (hs : b.motionType = .JPH_MOTION_TYPE_STATIC) :
    (Nat.iterate (collisionStep k procs deltaTime collisionSteps integrationSubSteps) n
        system).bodyInterface.body? bodyID = some b := by
  induction n generalizing system with
  | zero => exact hb
  | succ n ih =>
    exact ih _ (body?_collisionStep_static k procs deltaTime collisionSteps
      integrationSubSteps system bodyID b hb hs)

/-- C6: for every body whose motion type is Static and every call of
JPH_PhysicsSystem_Update, with any deltaTime, collisionSteps and
integrationSubSteps, any kernels (so any set of contacts) and any callback
table, the linear velocity read with JPH_BodyInterface_GetLinearVelocity
after the call equals the one read before it. -/
theorem static_body_velocity_unchanged (k : Kernels) (procs : JPH_ContactListener_Procs)
    (system : JPH_PhysicsSystem) (bodyID : JPH_BodyID) (deltaTime : CFloat)
    (collisionSteps integrationSubSteps : Int) (tempAlocator : JPH_TempAllocator)
    (jobSystem : JPH_JobSystemThreadPool)
    (hStatic : JPH_BodyInterface_GetMotionType system.bodyInterface bodyID
      = some .JPH_MOTION_TYPE_STATIC) :
    JPH_BodyInterface_GetLinearVelocity
        (JPH_PhysicsSystem_Update k procs system deltaTime collisionSteps integrationSubSteps
          tempAlocator jobSystem).1.bodyInterface bodyID
      = JPH_BodyInterface_GetLinearVelocity system.bodyInterface bodyID := by
  unfold JPH_BodyInterface_GetMotionType at hStatic
  cases hb : system.bodyInterface.body? bodyID with
  | none => simp [hb] at hStatic
  | some b =>
    have hs : b.motionType = .JPH_MOTION_TYPE_STATIC := by simpa [hb] using hStatic
    simp only [JPH_BodyInterface_GetLinearVelocity, JPH_PhysicsSystem_Update, hb]
    rw [body?_iterate_collisionStep_static k procs deltaTime collisionSteps
      integrationSubSteps _ system bodyID b hb hs]

/-- Witness for C6: the Static sphere of the scene over a call of two
collision steps in which it is in contact. -/
theorem static_body_velocity_unchanged_witness :
    JPH_BodyInterface_GetMotionType collidingScene.bodyInterface 1
        = some .JPH_MOTION_TYPE_STATIC
      ∧ JPH_BodyInterface_GetLinearVelocity
          (JPH_PhysicsSystem_Update sceneKernels acceptingProcs collidingScene 0 2 1
            { size := 1024 } { maxJobs := 16, maxBarriers := 4, inNumThreads := 1 }
            ).1.bodyInterface 1
        = JPH_BodyInterface_GetLinearVelocity collidingScene.bodyInterface 1 :=
  ⟨by decide, static_body_velocity_unchanged sceneKernels acceptingProcs collidingScene 1 0 2 1
    { size := 1024 } { maxJobs := 16, maxBarriers := 4, inNumThreads := 1 } (by decide)⟩

/-! ## Theorems on the contact lifecycle -/

/-- The callbacks of the lifecycle state machine, by kind. -/
theorem mem_lifecycleCallbacks (previous current : List JPH_SubShapeIDPair)
    (e : ContactEvent) :
    e ∈ lifecycleCallbacks previous current ↔
      (e.callback = .OnContactAdded ∧ e.pair ∉ previous ∧ e.pair ∈ current)
        ∨ (e.callback = .OnContactPersisted ∧ e.pair ∈ previous ∧ e.pair ∈ current)
        ∨ (e.callback = .OnContactRemoved ∧ e.pair ∈ previous ∧ e.pair ∉ current) := by
  obtain ⟨c, pair⟩ := e
  simp only [lifecycleCallbacks, List.mem_append, List.mem_map, List.mem_filter,
    decide_eq_true_eq]
  constructor
  · rintro (⟨q, hq, h⟩ | ⟨q, ⟨hq, hn⟩, h⟩)
    · by_cases hp : q ∈ previous
      · rw [if_pos hp] at h
        cases h
        exact Or.inr (Or.inl ⟨rfl, hp, hq⟩)
      · rw [if_neg hp] at h
        cases h
        exact Or.inl ⟨rfl, hp, hq⟩
    · cases h
      exact Or.inr (Or.inr ⟨rfl, hq, hn⟩)
  · rintro (⟨hc, hp, hq⟩ | ⟨hc, hp, hq⟩ | ⟨hc, hp, hq⟩)
    · subst hc
      exact Or.inl ⟨pair, hq, by rw [if_neg hp]⟩
    · subst hc
      exact Or.inl ⟨pair, hq, by rw [if_pos hp]⟩
    · subst hc
      exact Or.inr ⟨pair, ⟨hp, hq⟩, rfl⟩

/-- The pairs the lifecycle callbacks are sent for: those that have a manifold
this step, then those that had one last step and have none now. -/
theorem map_pair_lifecycleCallbacks (previous current : List JPH_SubShapeIDPair) :
    (lifecycleCallbacks previous current).map ContactEvent.pair
      = current ++ previous.filter fun pair => decide (pair ∉ current) := by
  simp only [lifecycleCallbacks, List.map_append, List.map_map]
  congr 1
  · conv_rhs => rw [← List.map_id current]
    apply List.map_congr_left
    intro pair _
    simp only [Function.comp]
    split <;> rfl
  · conv_rhs => rw [← List.map_id (previous.filter _)]
    apply List.map_congr_left
    intro pair _
    rfl

/-- At most one lifecycle callback is sent for a pair, when each list names a
pair at most once. -/
theorem count_pair_lifecycleCallbacks (previous current : List JPH_SubShapeIDPair)
    (hp : previous.Nodup) (hc : current.Nodup) (pair : JPH_SubShapeIDPair) :
    ((lifecycleCallbacks previous current).map ContactEvent.pair).count pair ≤ 1 := by
  rw [map_pair_lifecycleCallbacks]
  refine List.nodup_iff_count_le_one.mp (List.Nodup.append hc (hp.filter _) ?_) pair
  intro q hq hq'
  simp only [List.mem_filter, decide_eq_true_eq] at hq'
  exact hq'.2 hq

/-- The narrow phase names a pair at most once. -/
theorem nodup_narrowPhase (k : Kernels) (procs : JPH_ContactListener_Procs)
    (system : JPH_PhysicsSystem) : (narrowPhase k procs system).Nodup := by
  unfold narrowPhase
  exact List.nodup_dedup _

/-- C7: for every (body pair, sub-shape pair) and every two consecutive steps
with a listener installed, whatever body-interface calls lie between them,
the later step sends exactly the callbacks of `stepCallbacks`, and the
lifecycle callback among them for the pair is determined by whether the
pair had a manifold in the earlier step and has one in the later step:
OnContactAdded exactly when (no, yes), OnContactPersisted exactly when
(yes, yes), OnContactRemoved, with the pair's own JPH_SubShapeIDPair,
exactly when (yes, no), none of the three when (no, no); at most one of the
three is sent for the pair in the step. -/
theorem contact_lifecycle_determined (k : Kernels) (procs : JPH_ContactListener_Procs)
    (deltaTime deltaTime' : CFloat)
    (collisionSteps collisionSteps' integrationSubSteps integrationSubSteps' : Int)
    (between : List BodyCall) (earlier : JPH_PhysicsSystem) (listener : JPH_ContactListener)
    (hListener : earlier.contactListener = some listener) (pair : JPH_SubShapeIDPair) :
    (collisionStep k procs deltaTime' collisionSteps' integrationSubSteps'
        (laterStart k procs deltaTime collisionSteps integrationSubSteps between
          earlier)).dispatched
        = (laterStart k procs deltaTime collisionSteps integrationSubSteps between
            earlier).dispatched
          ++ stepCallbacks k procs
              (laterStart k procs deltaTime collisionSteps integrationSubSteps between earlier)
      ∧ ({ callback := .OnContactAdded, pair := pair } ∈ stepCallbacks k procs
            (laterStart k procs deltaTime collisionSteps integrationSubSteps between earlier)
          ↔ pair ∉ narrowPhase k procs earlier
            ∧ pair ∈ narrowPhase k procs
                (laterStart k procs deltaTime collisionSteps integrationSubSteps between
                  earlier))
      ∧ ({ callback := .OnContactPersisted, pair := pair } ∈ stepCallbacks k procs
            (laterStart k procs deltaTime collisionSteps integrationSubSteps between earlier)
          ↔ pair ∈ narrowPhase k procs earlier
            ∧ pair ∈ narrowPhase k procs
                (laterStart k procs deltaTime collisionSteps integrationSubSteps between
                  earlier))
      ∧ ({ callback := .OnContactRemoved, pair := pair } ∈ stepCallbacks k procs
            (laterStart k procs deltaTime collisionSteps integrationSubSteps between earlier)
          ↔ pair ∈ narrowPhase k procs earlier
            ∧ pair ∉ narrowPhase k procs
                (laterStart k procs deltaTime collisionSteps integrationSubSteps between
                  earlier))
      ∧ (pair ∉ narrowPhase k procs earlier →
          pair ∉ narrowPhase k procs
              (laterStart k procs deltaTime collisionSteps integrationSubSteps between
                earlier) →
          ∀ e ∈ stepCallbacks k procs
              (laterStart k procs deltaTime collisionSteps integrationSubSteps between earlier),
            e.pair ≠ pair)
      ∧ ((stepCallbacks k procs
            (laterStart k procs deltaTime collisionSteps integrationSubSteps between
              earlier)).map
          ContactEvent.pair).count pair ≤ 1 := by
  have hl : (laterStart k procs deltaTime collisionSteps integrationSubSteps between
      earlier).contactListener = some listener := hListener
  have hc : (laterStart k procs deltaTime collisionSteps integrationSubSteps between
      earlier).contacts = narrowPhase k procs earlier := rfl
  have hs : stepCallbacks k procs
      (laterStart k procs deltaTime collisionSteps integrationSubSteps between earlier)
      = lifecycleCallbacks (narrowPhase k procs earlier)
          (narrowPhase k procs
            (laterStart k procs deltaTime collisionSteps integrationSubSteps between
              earlier)) := by
    unfold stepCallbacks
    rw [hl, hc]
  rw [hs]
  refine ⟨?_, ?_, ?_, ?_, ?_, ?_⟩
  · rw [← hs]
    rfl
  · rw [mem_lifecycleCallbacks]
    simp
  · rw [mem_lifecycleCallbacks]
    simp
  · rw [mem_lifecycleCallbacks]
    simp
  · intro hn hn' e he hep
    rw [mem_lifecycleCallbacks] at he
    rw [hep] at he
    rcases he with ⟨_, _, h⟩ | ⟨_, h, _⟩ | ⟨_, h, _⟩
    · exact hn' h
    · exact hn h
    · exact hn h
  · exact count_pair_lifecycleCallbacks _ _ (nodup_narrowPhase k procs earlier)
      (nodup_narrowPhase k procs _) pair

/-- Witness for C7: in the scene the two spheres touch in both of two
consecutive steps of one update, so the later step sends OnContactPersisted
for their pair. -/
theorem contact_lifecycle_determined_witness :
    collidingScene.contactListener = some { handle := 0 }
      ∧ { callback := .OnContactPersisted, pair := spherePair } ∈ stepCallbacks sceneKernels
          acceptingProcs (laterStart sceneKernels acceptingProcs 0 1 1 [] collidingScene) :=
  ⟨rfl, (contact_lifecycle_determined sceneKernels acceptingProcs 0 0 1 1 1 1 [] collidingScene
    { handle := 0 } rfl spherePair).2.2.1.mpr ⟨by decide, by decide⟩⟩

/-! ## Theorems on the layer filters -/

/-- Both members of a pair of entries are entries of the list. -/
theorem mem_of_mem_bodyPairs {α : Type} (l : List α) (p : α × α) (h : p ∈ bodyPairs l) :
    p.1 ∈ l ∧ p.2 ∈ l := by
  induction l with
  | nil => simp [bodyPairs] at h
  | cons a rest ih =>
    simp only [bodyPairs, List.mem_append, List.mem_map] at h
    rcases h with ⟨b, hb, rfl⟩ | h
    · exact ⟨List.mem_cons_self _ _, List.mem_cons_of_mem _ hb⟩
    · exact ⟨List.mem_cons_of_mem _ (ih h).1, List.mem_cons_of_mem _ (ih h).2⟩

/-- A pair with a manifold in a step is a pair of two bodies of the store
whose object layers the layer filters do not reject. -/
theorem layers_of_mem_narrowPhase (k : Kernels) (procs : JPH_ContactListener_Procs)
    (system : JPH_PhysicsSystem) (pair : JPH_SubShapeIDPair)
    (h : pair ∈ narrowPhase k procs system) :
    ∃ b1 ∈ system.bodyInterface.bodies, ∃ b2 ∈ system.bodyInterface.bodies,
      pair.Body1ID = b1.id ∧ pair.Body2ID = b2.id
        ∧ layersRejected system b1.objectLayer b2.objectLayer = false := by
  simp only [narrowPhase, List.mem_dedup, List.mem_flatMap, List.mem_filter, broadPhase,
    pairManifolds, List.mem_map, Bool.and_eq_true] at h
  obtain ⟨p, ⟨⟨hp, ⟨⟨_, hf⟩, _⟩⟩, hg⟩, r, _, rfl⟩ := h
  refine ⟨p.1, (mem_of_mem_bodyPairs _ p hp).1, p.2, (mem_of_mem_bodyPairs _ p hp).2,
    rfl, rfl, ?_⟩
  simp [layersRejected, hf, hg]

/-- A callback a step sends is sent for a pair that has a manifold in the step
or had one in the step before. -/
theorem pair_of_mem_stepCallbacks (k : Kernels) (procs : JPH_ContactListener_Procs)
    (system : JPH_PhysicsSystem) (e : ContactEvent) (h : e ∈ stepCallbacks k procs system) :
    e.pair ∈ narrowPhase k procs system ∨ e.pair ∈ system.contacts := by
  unfold stepCallbacks at h
  split at h
  · rw [mem_lifecycleCallbacks] at h
    rcases h with ⟨_, _, h⟩ | ⟨_, _, h⟩ | ⟨_, h, _⟩
    · exact Or.inl h
    · exact Or.inl h
    · exact Or.inr h
  · simp at h

/-- A step keeps a rejected pair filtered out. -/
theorem PairFilteredOut.collisionStep (k : Kernels) (procs : JPH_ContactListener_Procs)
    (deltaTime : CFloat) (collisionSteps integrationSubSteps : Int)
    (system : JPH_PhysicsSystem) (body1ID body2ID : JPH_BodyID)
    (h : PairFilteredOut system body1ID body2ID) :
    PairFilteredOut
      (JoltC.collisionStep k procs deltaTime collisionSteps integrationSubSteps system)
      body1ID body2ID := by
  have hnp : ∀ pair ∈ narrowPhase k procs system, ¬ pair.isOf body1ID body2ID := by
    intro pair hpair ⟨h1, h2⟩
    obtain ⟨b1, hb1, b2, hb2, e1, e2, hr⟩ := layers_of_mem_narrowPhase k procs system pair hpair
    rw [h.rejected b1 hb1 b2 hb2 (e1.symm.trans h1) (e2.symm.trans h2)] at hr
    exact Bool.noConfusion hr
  refine ⟨?_, hnp, ?_⟩
  · intro b1 hb1 b2 hb2 h1 h2
    simp only [JoltC.collisionStep, List.mem_map] at hb1 hb2
    obtain ⟨c1, hc1, rfl⟩ := hb1
    obtain ⟨c2, hc2, rfl⟩ := hb2
    rw [solveBody_id] at h1 h2
    rw [solveBody_objectLayer, solveBody_objectLayer]
    exact h.rejected c1 hc1 c2 hc2 h1 h2
  · intro e he
    simp only [JoltC.collisionStep, List.mem_append] at he
    rcases he with he | he
    · exact h.noCallback e he
    · rcases pair_of_mem_stepCallbacks k procs system e he with hp | hp
      · exact hnp _ hp
      · exact h.noFootprint _ hp

/-- A call of JPH_PhysicsSystem_Update keeps a rejected pair filtered out. -/
theorem PairFilteredOut.update (k : Kernels) (procs : JPH_ContactListener_Procs)
    (deltaTime : CFloat) (collisionSteps integrationSubSteps : Int)
    (tempAlocator : JPH_TempAllocator) (jobSystem : JPH_JobSystemThreadPool)
    (system : JPH_PhysicsSystem) (body1ID body2ID : JPH_BodyID)
    (h : PairFilteredOut system body1ID body2ID) :
    PairFilteredOut
      (JPH_PhysicsSystem_Update k procs system deltaTime collisionSteps integrationSubSteps
        tempAlocator jobSystem).1
      body1ID body2ID := by
  simp only [JPH_PhysicsSystem_Update]
  generalize collisionSteps.toNat = n
  induction n generalizing system with
  | zero => exact h
  | succ n ih =>
    exact ih _ (PairFilteredOut.collisionStep k procs deltaTime collisionSteps
      integrationSubSteps system body1ID body2ID h)

/-- Every body a store operation leaves stood in the store before, under the
same BodyID and in the same object layer. -/
theorem body_of_mem_voidResult_mutate (interface : JPH_BodyInterface) (target : JPH_BodyID)
    (f : JPH_Body → JPH_Body) (hid : ∀ b, (f b).id = b.id)
    (hlayer : ∀ b, (f b).objectLayer = b.objectLayer) (b' : JPH_Body)
    (h : b' ∈ (voidResult interface (interface.mutate target f)).1.bodies) :
    ∃ b ∈ interface.bodies, b'.id = b.id ∧ b'.objectLayer = b.objectLayer := by
  unfold JPH_BodyInterface.mutate at h
  split at h
  · simp only [voidResult, List.mem_map] at h
    obtain ⟨b, hb, rfl⟩ := h
    refine ⟨b, hb, ?_⟩
    split
    · exact ⟨hid b, hlayer b⟩
    · exact ⟨rfl, rfl⟩
  · exact ⟨b', h, rfl, rfl⟩

/-- Every body a call that creates no body leaves stood in the store before,
under the same BodyID and in the same object layer. -/
theorem body_of_mem_run (call : BodyCall) (interface : JPH_BodyInterface) (b' : JPH_Body)
    (h : b' ∈ (call.run interface).bodies) :
    ∃ b ∈ interface.bodies, b'.id = b.id ∧ b'.objectLayer = b.objectLayer := by
  cases call with
  | DestroyBody target =>
    simp only [BodyCall.run, JPH_BodyInterface_DestroyBody, List.mem_filter] at h
    exact ⟨b', h.1, rfl, rfl⟩
  | AddBody target activation =>
    refine body_of_mem_voidResult_mutate interface target _ ?_ ?_ b' h <;> intro b <;> rfl
  | RemoveBody target =>
    refine body_of_mem_voidResult_mutate interface target _ ?_ ?_ b' h <;> intro b <;> rfl
  | SetLinearVelocity target velocity =>
    refine body_of_mem_voidResult_mutate interface target _ ?_ ?_ b' h <;> intro b <;> rfl
  | SetMotionType target motionType activationMode =>
    refine body_of_mem_voidResult_mutate interface target _ ?_ ?_ b' h <;> intro b <;> rfl

/-- A call that creates no body keeps a rejected pair filtered out. -/
theorem PairFilteredOut.run (k : Kernels) (procs : JPH_ContactListener_Procs)
    (call : ApiCall) (system : JPH_PhysicsSystem) (body1ID body2ID : JPH_BodyID)
    (h : PairFilteredOut system body1ID body2ID) :
    PairFilteredOut (call.run k procs system) body1ID body2ID := by
  cases call with
  | Update deltaTime collisionSteps integrationSubSteps tempAlocator jobSystem =>
    exact PairFilteredOut.update k procs deltaTime collisionSteps integrationSubSteps
      tempAlocator jobSystem system body1ID body2ID h
  | SetContactListener listener => exact ⟨h.rejected, h.noFootprint, h.noCallback⟩
  | Body call =>
    refine ⟨?_, h.noFootprint, h.noCallback⟩
    intro b1 hb1 b2 hb2 h1 h2
    obtain ⟨c1, hc1, e1, l1⟩ := body_of_mem_run call system.bodyInterface b1 hb1
    obtain ⟨c2, hc2, e2, l2⟩ := body_of_mem_run call system.bodyInterface b2 hb2
    have := h.rejected c1 hc1 c2 hc2 (e1.symm.trans h1) (e2.symm.trans h2)
    rw [← l1, ← l2] at this
    exact this

/-- C8: for every pair of bodies whose layers are rejected by the
object-vs-broad-phase filter or by the object-layer pair filter given to
JPH_PhysicsSystem_Init, and for which nothing has been sent yet, no
OnContactAdded, OnContactPersisted or OnContactRemoved is sent for that pair
in any step of any run of calls that create no body. -/
theorem filtered_pair_never_dispatched (k : Kernels) (procs : JPH_ContactListener_Procs)
    (calls : List ApiCall) (system : JPH_PhysicsSystem) (body1ID body2ID : JPH_BodyID)
    (h : PairFilteredOut system body1ID body2ID) :
    ∀ e ∈ (runCalls k procs calls system).dispatched, ¬ e.pair.isOf body1ID body2ID := by
  suffices hInv : PairFilteredOut (runCalls k procs calls system) body1ID body2ID from
    hInv.noCallback
  unfold runCalls
  induction calls generalizing system with
  | nil => exact h
  | cons call rest ih =>
    exact ih (call.run k procs system) (PairFilteredOut.run k procs call system body1ID body2ID h)

/-- Witness for C8: in the scene whose pair filter lets only equal object
layers collide, the two spheres (layers 0 and
1) overlap in every step, and no callback is sent for them over a run of
three collision steps, a velocity change and two more steps. -/
theorem filtered_pair_never_dispatched_witness :
    PairFilteredOut separatedScene 1 2
      ∧ ∀ e ∈ (runCalls sceneKernels acceptingProcs
            [.Update 0 3 1 { size := 1024 } { maxJobs := 16, maxBarriers := 4, inNumThreads := 1 },
             .Body (.SetLinearVelocity 2 zeroVec),
             .Update 0 2 1 { size := 1024 } { maxJobs := 16, maxBarriers := 4, inNumThreads := 1 }]
            separatedScene).dispatched,
          ¬ e.pair.isOf 1 2 :=
  have h : PairFilteredOut separatedScene 1 2 :=
    ⟨by decide, fun _ hp => absurd hp (List.not_mem_nil _),
      fun _ he => absurd he (List.not_mem_nil _)⟩
  ⟨h, filtered_pair_never_dispatched sceneKernels acceptingProcs _ separatedScene 1 2 h⟩

end JoltC
